import Mathlib

/-!
# Verification of the AquaVM preparation step, AVM server entry, and round model

Shallow embedding of:
- `src/air/src/preparation_step/preparation.rs` (data parsing, version gate,
  context preparation),
- `src/avm/server/src/avm.rs` (`AVM::call` round entry with the data store),
- the round/trace-replay engine, which lives outside the provided sources and is
  modelled from the specification's description of the Trace Handler.

Opaque foreign payloads (values, executed states, serialized bytes, signatures)
are represented by `Nat` / `List Nat`; fallible foreign operations (the
deserializers, the key provider, the script parser, the host runner) are
parameters of the embedded functions, so each theorem quantifies over every
possible behaviour of the collaborator.
-/

namespace AquaVM

/-- Semantic version, compared lexicographically (models the `semver::Version`
triples used by the interpreter; build/pre-release tags are not exercised by the
code under study). -/
structure SemVer where
  major : Nat
  minor : Nat
  patch : Nat
deriving DecidableEq, Repr

/-- Lexicographic strict order on versions, as `semver`'s `<` behaves on plain
`major.minor.patch` triples. -/
def SemVer.lt (a b : SemVer) : Bool :=
  if a.major = b.major then
    if a.minor = b.minor then decide (a.patch < b.patch)
    else decide (a.minor < b.minor)
  else decide (a.major < b.major)

theorem SemVer.lt_irrefl (v : SemVer) : SemVer.lt v v = false := by
  simp [SemVer.lt]

/-- Modelled from the spec: the version pair recorded in Interpreter Data,
"version triple (interpreter semver, data-format semver)" (`air-interpreter-data`
crate, not under `src/`). -/
structure Versions where
  data_version : SemVer
  interpreter_version : SemVer
deriving DecidableEq, Repr

/-- Modelled from the spec: Interpreter Data, "the unit round-tripped between
rounds": versions, execution trace, CID table, last call-request id
(`air-interpreter-data` crate, not under `src/`). Trace elements and CID-table
entries are opaque here. -/
structure InterpreterData where
  versions : Versions
  trace : List Nat
  cid_info : List (Nat × Nat)
  last_call_request_id : Nat
deriving DecidableEq, Repr

/-- Modelled from the spec: the implementation's minimum supported interpreter
version constant (`super::min_supported_version()`, defined outside `src/`).
Its concrete value is immaterial to every claim below. -/
def min_supported_version : SemVer := ⟨0, 31, 2⟩

/-- Modelled from the spec: the data-format version stamped into fresh data;
its concrete value is immaterial to every claim below. -/
def current_data_version : SemVer := ⟨0, 6, 2⟩

/-- Modelled from the spec: `InterpreterData::new(version)` — "an empty byte
sequence ... must deserialize to an empty Interpreter Data at the
implementation's minimum supported version": empty trace, fresh CID table, zero
last call-request id, the given interpreter version. -/
def InterpreterData.new (interpreter_version : SemVer) : InterpreterData :=
  { versions := ⟨current_data_version, interpreter_version⟩
    trace := []
    cid_info := []
    last_call_request_id := 0 }

/-- Preparation errors, after `PreparationError` (the variants exercised by
`preparation.rs`; payloads of foreign error types are opaque `Nat`s, raw bytes
are carried as in the source). -/
inductive PreparationError where
  | AIRParseError (err : Nat)
  | DataDeFailed (raw_data : List Nat) (de_error : Nat)
  | DataDeFailedWithVersions (raw_data : List Nat) (de_error : Nat) (versions : Versions)
  | UnsupportedInterpreterVersion (actual_version : SemVer) (required_version : SemVer)
  | CallResultsDeFailed (call_results : List Nat) (de_error : Nat)
  | KeyError (err : Nat)
deriving DecidableEq, Repr

/-- `PreparationError::data_de_failed_with_versions`. -/
def PreparationError.data_de_failed_with_versions (raw : List Nat) (e : Nat)
    (v : Versions) : PreparationError :=
  .DataDeFailedWithVersions raw e v

/-- `PreparationError::data_de_failed`. -/
def PreparationError.data_de_failed (raw : List Nat) (e : Nat) : PreparationError :=
  .DataDeFailed raw e

/-- `to_date_de_error` from `preparation.rs`: recover versions from the raw
bytes on a best-effort basis; `try_get_versions`
(`InterpreterData::try_get_versions`, foreign) is a parameter. -/
def to_date_de_error (try_get_versions : List Nat → Except Nat Versions)
    (raw_data : List Nat) (de_error : Nat) : PreparationError :=
  match try_get_versions raw_data with
  | .ok versions => PreparationError.data_de_failed_with_versions raw_data de_error versions
  | .error _ => PreparationError.data_de_failed raw_data de_error

/-- `try_to_data` from `preparation.rs`: an empty slice is an empty data at the
minimum supported version; otherwise deserialize
(`InterpreterData::try_from_slice`, foreign, is the `try_from_slice`
parameter), turning a failure into a data-deserialization error. -/
def try_to_data (try_from_slice : List Nat → Except Nat InterpreterData)
    (try_get_versions : List Nat → Except Nat Versions)
    (raw_data : List Nat) : Except PreparationError InterpreterData :=
  if raw_data.isEmpty then .ok (InterpreterData.new min_supported_version)
  else
    match try_from_slice raw_data with
    | .ok data => .ok data
    | .error de_error => .error (to_date_de_error try_get_versions raw_data de_error)

/-- `check_version_compatibility` from `preparation.rs`: reject data whose
interpreter version is strictly below the minimum supported version. -/
def check_version_compatibility (data : InterpreterData) :
    Except PreparationError Unit :=
  if SemVer.lt data.versions.interpreter_version min_supported_version then
    .error (.UnsupportedInterpreterVersion data.versions.interpreter_version
      min_supported_version)
  else .ok ()

/-- `ParsedDataPair` from `preparation.rs`. -/
structure ParsedDataPair where
  prev_data : InterpreterData
  current_data : InterpreterData
deriving DecidableEq, Repr

/-- `parse_data` from `preparation.rs`: parse both data blobs, then check the
version of the *current* data; each `?` of the source is an explicit match on
the error case. -/
def parse_data (try_from_slice : List Nat → Except Nat InterpreterData)
    (try_get_versions : List Nat → Except Nat Versions)
    (prev_data current_data : List Nat) : Except PreparationError ParsedDataPair :=
  match try_to_data try_from_slice try_get_versions prev_data with
  | .error e => .error e
  | .ok prev =>
    match try_to_data try_from_slice try_get_versions current_data with
    | .error e => .error e
    | .ok current =>
      match check_version_compatibility current with
      | .error e => .error e
      | .ok _ => .ok ⟨prev, current⟩

end AquaVM

namespace AquaVM

/-! Theorems for claims C3 and C9. -/

/-- C3: `try_to_data` applied to an empty byte sequence succeeds and returns an
`InterpreterData` with an empty (length-0) trace, interpreter version equal to
the minimum supported version, and a fresh (empty) CID table — never a
deserialization error — whatever the foreign deserializer does. -/
theorem try_to_data_empty_bootstrap
    (try_from_slice : List Nat → Except Nat InterpreterData)
    (try_get_versions : List Nat → Except Nat Versions) :
    try_to_data try_from_slice try_get_versions []
      = .ok (InterpreterData.new min_supported_version)
    ∧ (InterpreterData.new min_supported_version).trace = []
    ∧ (InterpreterData.new min_supported_version).versions.interpreter_version
        = min_supported_version
    ∧ (InterpreterData.new min_supported_version).cid_info = [] := by
  refine ⟨rfl, rfl, rfl, rfl⟩

/-- C9: `check_version_compatibility` fails exactly on versions strictly below
the minimum supported version; in particular data recorded exactly at the
boundary version is accepted. -/
theorem check_version_compatibility_boundary (data : InterpreterData) :
    (check_version_compatibility data = .ok ()
      ↔ SemVer.lt data.versions.interpreter_version min_supported_version = false)
    ∧ (data.versions.interpreter_version = min_supported_version →
        check_version_compatibility data = .ok ()) := by
  constructor
  · unfold check_version_compatibility
    rcases h : SemVer.lt data.versions.interpreter_version min_supported_version <;>
      simp [h]
  · intro h
    simp [check_version_compatibility, h, SemVer.lt_irrefl]

/-- Witness for C9 at the boundary version itself. -/
theorem check_version_compatibility_boundary_witness :
    check_version_compatibility (InterpreterData.new min_supported_version) = .ok () :=
  (check_version_compatibility_boundary (InterpreterData.new min_supported_version)).2 rfl

end AquaVM

namespace AquaVM

/-! Concrete collaborator instances used by counterexamples and witnesses. -/

/-- An interpreter data whose recorded interpreter version `0.0.1` is strictly
older than `min_supported_version`. -/
def old_version_data : InterpreterData :=
  { versions := ⟨current_data_version, ⟨0, 0, 1⟩⟩
    trace := []
    cid_info := []
    last_call_request_id := 0 }

/-- A deserializer mapping the byte sequence `[0]` to `old_version_data`. -/
def de_old : List Nat → Except Nat InterpreterData :=
  fun raw => if raw = [0] then .ok old_version_data else .error 0

/-- A deserializer that always fails with error code `7`. -/
def de_fail : List Nat → Except Nat InterpreterData := fun _ => .error 7

/-- A version extractor that always fails. -/
def gv_fail : List Nat → Except Nat Versions := fun _ => .error 0

/-- A version extractor that always succeeds with a fixed version pair. -/
def gv_ok : List Nat → Except Nat Versions :=
  fun _ => .ok ⟨⟨0, 5, 0⟩, ⟨0, 40, 0⟩⟩

/-- C1 counterexample: previous data recording interpreter version `0.0.1`
(strictly older than the minimum supported version) sails through `parse_data`
— the version gate inspects only the current data, so the claim as stated about
previous data is false. -/
theorem parse_data_ignores_prev_version_counterexample :
    parse_data de_old gv_fail [0] []
        = .ok ⟨old_version_data, InterpreterData.new min_supported_version⟩
      ∧ SemVer.lt old_version_data.versions.interpreter_version min_supported_version
        = true := by
  constructor
  · rfl
  · decide

/-- C1 (amended): for every *current*-data byte sequence that deserializes to
an `InterpreterData` whose recorded interpreter version is strictly older than
the minimum supported version (and whose previous data parses), `parse_data`
fails with `UnsupportedInterpreterVersion` carrying the actual and required
versions, so no execution descriptor is ever built from such data. -/
theorem parse_data_version_gate
    (try_from_slice : List Nat → Except Nat InterpreterData)
    (try_get_versions : List Nat → Except Nat Versions)
    (prev_raw current_raw : List Nat) (pd cd : InterpreterData)
    (hp : try_to_data try_from_slice try_get_versions prev_raw = .ok pd)
    (hc : try_to_data try_from_slice try_get_versions current_raw = .ok cd)
    (hv : SemVer.lt cd.versions.interpreter_version min_supported_version = true) :
    parse_data try_from_slice try_get_versions prev_raw current_raw
      = .error (.UnsupportedInterpreterVersion cd.versions.interpreter_version
          min_supported_version) := by
  simp [parse_data, hp, hc, check_version_compatibility, hv]

/-- Witness for the amended C1: current data deserializing at version `0.0.1`
is rejected with the actual and required versions. -/
theorem parse_data_version_gate_witness :
    parse_data de_old gv_fail [] [0]
      = .error (.UnsupportedInterpreterVersion ⟨0, 0, 1⟩ min_supported_version) :=
  parse_data_version_gate de_old gv_fail [] [0]
    (InterpreterData.new min_supported_version) old_version_data rfl rfl (by decide)

/-- C5: on a non-empty byte sequence that fails deserialization, `try_to_data`
reports a deserialization error that carries the recovered versions whenever
`try_get_versions` can still extract them from the raw bytes, and otherwise is
the plain deserialization failure; in both cases the raw bytes ride along in
the error. -/
theorem try_to_data_de_error_diagnostics
    (try_from_slice : List Nat → Except Nat InterpreterData)
    (try_get_versions : List Nat → Except Nat Versions)
    (raw : List Nat) (de_error : Nat)
    (hne : raw ≠ [])
    (hde : try_from_slice raw = .error de_error) :
    (∀ v, try_get_versions raw = .ok v →
        try_to_data try_from_slice try_get_versions raw
          = .error (.DataDeFailedWithVersions raw de_error v))
    ∧ (∀ e, try_get_versions raw = .error e →
        try_to_data try_from_slice try_get_versions raw
          = .error (.DataDeFailed raw de_error)) := by
  have hraw : raw.isEmpty = false := by
    cases raw with
    | nil => exact absurd rfl hne
    | cons x xs => rfl
  constructor <;> intro x hx <;>
    simp [try_to_data, hraw, hde, to_date_de_error, hx,
      PreparationError.data_de_failed_with_versions, PreparationError.data_de_failed]

/-- Witness for C5: a failing deserialization of `[1]` with an unrecoverable
version yields the plain deserialization failure carrying the raw bytes. -/
theorem try_to_data_de_error_diagnostics_witness :
    try_to_data de_fail gv_fail [1] = .error (.DataDeFailed [1] 7) :=
  (try_to_data_de_error_diagnostics de_fail gv_fail [1] 7 (by decide) rfl).2 0 rfl

end AquaVM

namespace AquaVM

/-- `ExecCtxIngredients`: the pair carried from one data into context
construction — last issued call-request id and CID table. -/
structure ExecCtxIngredients where
  last_call_request_id : Nat
  cid_info : List (Nat × Nat)
deriving DecidableEq, Repr

/-- `RunParameters` (foreign `air-interpreter-interface` struct): only the
fields read by `prepare` are modelled; the rest are opaque to this slice. -/
structure RunParameters where
  current_peer_id : Nat
  key_format : Nat
  secret_key_bytes : List Nat
deriving DecidableEq, Repr

/-- Modelled from the spec: the Execution Context "aggregates ingredients
carried from the previous round ... with ingredients from the current round"
and is "merged once at context construction" (`ExecutionCtx::new`, in the
`execution_step` crate outside `src/`); it is modelled as the record of its
construction arguments, the deserialized call results and signature store
being opaque. -/
structure ExecutionCtx where
  prev_ingredients : ExecCtxIngredients
  current_ingredients : ExecCtxIngredients
  call_results : Nat
  signature_store : Nat
  run_parameters : RunParameters
deriving DecidableEq, Repr

/-- Modelled from the spec: `ExecutionCtx::new` packs the five construction
arguments. -/
def ExecutionCtx.new (prev_ingredients current_ingredients : ExecCtxIngredients)
    (call_results : Nat) (signature_store : Nat)
    (run_parameters : RunParameters) : ExecutionCtx :=
  ⟨prev_ingredients, current_ingredients, call_results, signature_store, run_parameters⟩

/-- Modelled from the spec: `TraceHandler::from_trace` seeds the handler "with
the previous and (empty) current traces"; modelled as the record of both. -/
structure TraceHandler where
  prev_trace : List Nat
  current_trace : List Nat
deriving DecidableEq, Repr

/-- Modelled from the spec: `TraceHandler::from_trace`. -/
def TraceHandler.from_trace (prev current : List Nat) : TraceHandler :=
  ⟨prev, current⟩

/-- `PreparationDescriptor` from `preparation.rs` (script tree and keypair
opaque). -/
structure PreparationDescriptor where
  exec_ctx : ExecutionCtx
  trace_handler : TraceHandler
  air : Nat
  keypair : Nat
deriving DecidableEq, Repr

/-- `make_exec_ctx` from `preparation.rs`: deserialize the call results
(foreign `CallResultsRepr.deserialize` is the parameter), then build the
context from the two ingredient pairs. -/
def make_exec_ctx (deserialize_call_results : List Nat → Except Nat Nat)
    (prev_ingredients current_ingredients : ExecCtxIngredients)
    (call_results : List Nat) (signature_store : Nat)
    (run_parameters : RunParameters) : Except PreparationError ExecutionCtx :=
  match deserialize_call_results call_results with
  | .error e => .error (.CallResultsDeFailed call_results e)
  | .ok cr =>
    .ok (ExecutionCtx.new prev_ingredients current_ingredients cr
      signature_store run_parameters)

/-- `prepare` from `preparation.rs`: parse the script, extract exactly
{last call-request id, CID table} from each data, build the context, seed the
trace handler, then derive the keypair from the run parameters; each `?` of
the source is an explicit match on the error case. Foreign operations
(`air_parser::parse`, `CallResultsRepr.deserialize`, `KeyFormat::try_from`
composed with `KeyError::from`, `KeyPair::from_secret_key`) are parameters. -/
def prepare (parse_air : String → Except Nat Nat)
    (deserialize_call_results : List Nat → Except Nat Nat)
    (key_format_from : Nat → Except Nat Nat)
    (keypair_from_secret_key : List Nat → Nat → Except Nat Nat)
    (prev_data current_data : InterpreterData) (raw_air : String)
    (call_results : List Nat) (run_parameters : RunParameters)
    (signature_store : Nat) : Except PreparationError PreparationDescriptor :=
  match parse_air raw_air with
  | .error e => .error (.AIRParseError e)
  | .ok air =>
    let prev_ingredients : ExecCtxIngredients :=
      ⟨prev_data.last_call_request_id, prev_data.cid_info⟩
    let current_ingredients : ExecCtxIngredients :=
      ⟨current_data.last_call_request_id, current_data.cid_info⟩
    match make_exec_ctx deserialize_call_results prev_ingredients
        current_ingredients call_results signature_store run_parameters with
    | .error e => .error e
    | .ok exec_ctx =>
      let trace_handler := TraceHandler.from_trace prev_data.trace current_data.trace
      match key_format_from run_parameters.key_format with
      | .error e => .error (.KeyError e)
      | .ok key_format =>
        match keypair_from_secret_key run_parameters.secret_key_bytes key_format with
        | .error e => .error (.KeyError e)
        | .ok keypair => .ok ⟨exec_ctx, trace_handler, air, keypair⟩

end AquaVM

namespace AquaVM

/-! Concrete collaborators used by the `prepare` witnesses. -/

/-- A script parser that always succeeds with an opaque instruction tree. -/
def parse_ok : String → Except Nat Nat := fun _ => .ok 0

/-- A call-results deserializer that always succeeds. -/
def cr_ok : List Nat → Except Nat Nat := fun _ => .ok 0

/-- A key-format conversion that always fails with key error `3`. -/
def kf_bad : Nat → Except Nat Nat := fun _ => .error 3

/-- A key-format conversion that always succeeds. -/
def kf_ok : Nat → Except Nat Nat := fun _ => .ok 0

/-- A keypair derivation that always succeeds. -/
def kp_ok : List Nat → Nat → Except Nat Nat := fun _ _ => .ok 0

/-- Fixed run parameters for witnesses. -/
def rp0 : RunParameters := ⟨0, 0, [0]⟩

/-- C6: whenever the key format selector is invalid, or the secret key bytes
are invalid for a valid format, `prepare` returns the structured key error and
produces no descriptor — the failure is a pure function of the inputs, decided
inside `prepare` itself, before any execution. -/
theorem prepare_rejects_bad_key
    (parse_air : String → Except Nat Nat)
    (deserialize_call_results : List Nat → Except Nat Nat)
    (key_format_from : Nat → Except Nat Nat)
    (keypair_from_secret_key : List Nat → Nat → Except Nat Nat)
    (prev_data current_data : InterpreterData) (raw_air : String)
    (call_results : List Nat) (run_parameters : RunParameters)
    (signature_store : Nat) (air cr : Nat)
    (hair : parse_air raw_air = .ok air)
    (hcr : deserialize_call_results call_results = .ok cr) :
    (∀ e, key_format_from run_parameters.key_format = .error e →
      prepare parse_air deserialize_call_results key_format_from
          keypair_from_secret_key prev_data current_data raw_air call_results
          run_parameters signature_store
        = .error (.KeyError e))
    ∧ (∀ kf e, key_format_from run_parameters.key_format = .ok kf →
        keypair_from_secret_key run_parameters.secret_key_bytes kf = .error e →
        prepare parse_air deserialize_call_results key_format_from
            keypair_from_secret_key prev_data current_data raw_air call_results
            run_parameters signature_store
          = .error (.KeyError e)) := by
  constructor
  · intro e he
    simp [prepare, make_exec_ctx, hair, hcr, he]
  · intro kf e hkf he
    simp [prepare, make_exec_ctx, hair, hcr, hkf, he]

/-- Witness for C6: an invalid key format selector makes `prepare` fail with
the key error. -/
theorem prepare_rejects_bad_key_witness :
    prepare parse_ok cr_ok kf_bad kp_ok (InterpreterData.new min_supported_version)
        (InterpreterData.new min_supported_version) "" [] rp0 0
      = .error (.KeyError 3) :=
  (prepare_rejects_bad_key parse_ok cr_ok kf_bad kp_ok
      (InterpreterData.new min_supported_version)
      (InterpreterData.new min_supported_version) "" [] rp0 0 0 0 rfl rfl).1 3 rfl

/-- C8: when `prepare` succeeds, the execution context of the returned
descriptor is exactly `ExecutionCtx.new` applied to the pair
{last call-request id, CID table} of the previous data and the same pair of
the current data (plus the deserialized call results, the signature store and
the run parameters): no other part of either data feeds the context, and the
merge happens once, at construction. -/
theorem prepare_ctx_exactly_from_ingredients
    (parse_air : String → Except Nat Nat)
    (deserialize_call_results : List Nat → Except Nat Nat)
    (key_format_from : Nat → Except Nat Nat)
    (keypair_from_secret_key : List Nat → Nat → Except Nat Nat)
    (prev_data current_data : InterpreterData) (raw_air : String)
    (call_results : List Nat) (run_parameters : RunParameters)
    (signature_store : Nat) (desc : PreparationDescriptor) (cr : Nat)
    (hcr : deserialize_call_results call_results = .ok cr)
    (hok : prepare parse_air deserialize_call_results key_format_from
        keypair_from_secret_key prev_data current_data raw_air call_results
        run_parameters signature_store = .ok desc) :
    desc.exec_ctx = ExecutionCtx.new
        ⟨prev_data.last_call_request_id, prev_data.cid_info⟩
        ⟨current_data.last_call_request_id, current_data.cid_info⟩
        cr signature_store run_parameters := by
  simp only [prepare, make_exec_ctx, hcr] at hok
  cases hair : parse_air raw_air with
  | error e => rw [hair] at hok; exact absurd hok (by simp)
  | ok air =>
    rw [hair] at hok
    cases hkf : key_format_from run_parameters.key_format with
    | error e => simp [hkf] at hok
    | ok kf =>
      rw [hkf] at hok
      cases hkp : keypair_from_secret_key run_parameters.secret_key_bytes kf with
      | error e => simp [hkp] at hok
      | ok kp =>
        simp [hkp] at hok
        rw [← hok]

end AquaVM

namespace AquaVM

/-- A previous data with distinctive trace, CID table and last call-request id,
used to exercise `prepare`. -/
def dataA : InterpreterData :=
  { versions := ⟨current_data_version, min_supported_version⟩
    trace := [5]
    cid_info := [(1, 2)]
    last_call_request_id := 4 }

/-- The descriptor `prepare` produces from `dataA` and the always-succeeding
collaborators. -/
def descA : PreparationDescriptor :=
  ⟨ExecutionCtx.new ⟨4, [(1, 2)]⟩ ⟨0, []⟩ 0 0 rp0,
   TraceHandler.from_trace [5] [], 0, 0⟩

/-- Witness for C8 on a concrete successful `prepare` run. -/
theorem prepare_ctx_exactly_from_ingredients_witness :
    descA.exec_ctx = ExecutionCtx.new ⟨4, [(1, 2)]⟩ ⟨0, []⟩ 0 0 rp0 :=
  prepare_ctx_exactly_from_ingredients parse_ok cr_ok kf_ok kp_ok dataA
    (InterpreterData.new min_supported_version) "" [] rp0 0 descA 0 rfl rfl

end AquaVM

namespace AquaVM

/-! ## `AVM::call` from `src/avm/server/src/avm.rs`

The data store (`AVMDataStore`, foreign) is modelled from the spec as the
persistent map `particle_id → bytes`, with fallibility of `read_data` /
`store_data` injected through error oracles, and the runner
(`AVMRunner::call`, foreign) and `AVMOutcome::from_raw_outcome` (foreign) as
parameters. -/

/-- Raw outcome returned by the runner (only the `data` field is read by
`AVM::call`; the rest is opaque). -/
structure RawAVMOutcome where
  data : List Nat
  rest : Nat
deriving DecidableEq, Repr

/-- Errors of the AVM server layer, after `AVMError` (runner and data-store
error payloads opaque). -/
inductive AVMError (E : Type) where
  | RunnerError (err : Nat)
  | DataStoreError (err : E)
  | OutcomeError (err : Nat)
deriving DecidableEq, Repr

/-- `AVM::call` from `avm.rs`: read previous data from the store under the
particle id, run the runner over it together with the supplied data and call
results, persist the outcome's data under the same particle id, then convert
the raw outcome; each `?` of the source is an explicit match on the error
case. The returned pair is (call result, data store state after the call). -/
def AVM.call {E : Type}
    (read_data_err : String → Option E)
    (store_data_err : String → List Nat → Option E)
    (runner_call : String → List Nat → List Nat → String → Nat → Except Nat RawAVMOutcome)
    (from_raw_outcome : RawAVMOutcome → Except Nat Nat)
    (store : String → List Nat)
    (air : String) (data : List Nat) (init_user_id : String)
    (particle_id : String) (call_results : Nat) :
    Except (AVMError E) Nat × (String → List Nat) :=
  match read_data_err particle_id with
  | some e => (.error (.DataStoreError e), store)
  | none =>
    let prev_data := store particle_id
    match runner_call air prev_data data init_user_id call_results with
    | .error e => (.error (.RunnerError e), store)
    | .ok outcome =>
      match store_data_err particle_id outcome.data with
      | some e => (.error (.DataStoreError e), store)
      | none =>
        let store' := fun pid => if pid = particle_id then outcome.data else store pid
        match from_raw_outcome outcome with
        | .error e => (.error (.OutcomeError e), store')
        | .ok res => (.ok res, store')

end AquaVM

namespace AquaVM

/-- C7: when the read, the runner and the write all succeed, `AVM::call` reads
the previous data from the store under the given particle id, passes it to the
runner with the supplied data and call results, stores the outcome's data
bytes back under the same particle id, and returns the converted outcome; the
rest of the store is untouched. -/
theorem avm_call_persists_outcome {E : Type}
    (read_data_err : String → Option E)
    (store_data_err : String → List Nat → Option E)
    (runner_call : String → List Nat → List Nat → String → Nat → Except Nat RawAVMOutcome)
    (from_raw_outcome : RawAVMOutcome → Except Nat Nat)
    (store : String → List Nat)
    (air : String) (data : List Nat) (init_user_id : String)
    (particle_id : String) (call_results : Nat) (outcome : RawAVMOutcome)
    (hread : read_data_err particle_id = none)
    (hrun : runner_call air (store particle_id) data init_user_id call_results
      = .ok outcome)
    (hstore : store_data_err particle_id outcome.data = none) :
    AVM.call read_data_err store_data_err runner_call from_raw_outcome store
        air data init_user_id particle_id call_results
      = (match from_raw_outcome outcome with
          | .error e => .error (.OutcomeError e)
          | .ok res => .ok res,
         fun pid => if pid = particle_id then outcome.data else store pid) := by
  unfold AVM.call
  simp only [hread, hrun, hstore]
  cases h : from_raw_outcome outcome <;> simp [h]

/-- C10: if the runner invocation inside `AVM::call` fails, the error is
returned as a runner error and the data store is left exactly as it was: no
write happens for the particle id on this path. -/
theorem avm_call_runner_error_keeps_store {E : Type}
    (read_data_err : String → Option E)
    (store_data_err : String → List Nat → Option E)
    (runner_call : String → List Nat → List Nat → String → Nat → Except Nat RawAVMOutcome)
    (from_raw_outcome : RawAVMOutcome → Except Nat Nat)
    (store : String → List Nat)
    (air : String) (data : List Nat) (init_user_id : String)
    (particle_id : String) (call_results : Nat) (e : Nat)
    (hread : read_data_err particle_id = none)
    (hrun : runner_call air (store particle_id) data init_user_id call_results
      = .error e) :
    AVM.call read_data_err store_data_err runner_call from_raw_outcome store
        air data init_user_id particle_id call_results
      = (.error (.RunnerError e), store) := by
  unfold AVM.call
  simp only [hread, hrun]

/-! Concrete collaborators for the `AVM::call` witnesses. -/

/-- A store-operation oracle that never fails. -/
def no_store_err : String → Option Unit := fun _ => none

/-- A write oracle that never fails. -/
def no_write_err : String → List Nat → Option Unit := fun _ _ => none

/-- A runner that always succeeds with outcome data `[9]`. -/
def runner_good : String → List Nat → List Nat → String → Nat → Except Nat RawAVMOutcome :=
  fun _ _ _ _ _ => .ok ⟨[9], 0⟩

/-- A runner that always fails with error code `5`. -/
def runner_bad : String → List Nat → List Nat → String → Nat → Except Nat RawAVMOutcome :=
  fun _ _ _ _ _ => .error 5

/-- A raw-outcome conversion that always succeeds with `1`. -/
def from_raw_ok : RawAVMOutcome → Except Nat Nat := fun _ => .ok 1

/-- An initially empty data store. -/
def empty_store : String → List Nat := fun _ => []

/-- Witness for C7: a successful concrete call stores `[9]` under the particle
id and returns the converted outcome. -/
theorem avm_call_persists_outcome_witness :
    AVM.call no_store_err no_write_err runner_good from_raw_ok empty_store
        "script" [2] "uid" "pid" 0
      = (match from_raw_ok (⟨[9], 0⟩ : RawAVMOutcome) with
          | .error e => .error (.OutcomeError e)
          | .ok res => .ok res,
         fun pid => if pid = "pid" then [9] else empty_store pid) :=
  avm_call_persists_outcome no_store_err no_write_err runner_good from_raw_ok
    empty_store "script" [2] "uid" "pid" 0 ⟨[9], 0⟩ rfl rfl rfl

/-- Witness for C10: a failing concrete runner call leaves the store as it
was and surfaces the runner error. -/
theorem avm_call_runner_error_keeps_store_witness :
    AVM.call no_store_err no_write_err runner_bad from_raw_ok empty_store
        "script" [2] "uid" "pid" 0
      = (.error (.RunnerError 5), empty_store) :=
  avm_call_runner_error_keeps_store no_store_err no_write_err runner_bad
    from_raw_ok empty_store "script" [2] "uid" "pid" 0 5 rfl rfl

end AquaVM

namespace AquaVM

/-! ## The round / trace-replay engine

Modelled from the spec: the Trace Handler and the tree walk live outside the
provided sources, so a round is modelled from §4.2/§5 of the specification on
a linear script of `script_len` call sites with request ids assigned in walk
order: at each site, if the previous trace still has an unconsumed state it is
replayed unchanged and the cursor advances; otherwise, if the externally
supplied call results answer this request id, the call executes and its value
is appended; otherwise the round terminates early as pending. -/

/-- Modelled from the spec: the walk from position `pos` with `k` call sites
remaining, consuming the unread suffix `prev` of the previous trace and
producing the suffix of the current trace. -/
def run_round_from (call_results : Nat → Option Nat) :
    Nat → Nat → List Nat → List Nat
  | 0, _, _ => []
  | k + 1, pos, v :: rest => v :: run_round_from call_results k (pos + 1) rest
  | k + 1, pos, [] =>
    match call_results pos with
    | some v => v :: run_round_from call_results k (pos + 1) []
    | none => []

/-- Modelled from the spec: one full round over a script of `script_len` call
sites, a previous trace and the supplied call results. -/
def run_round (call_results : Nat → Option Nat) (script_len : Nat)
    (prev_trace : List Nat) : List Nat :=
  run_round_from call_results script_len 0 prev_trace

/-- Modelled from the spec: a single run of a round, as an operational
relation — `RoundStep call_results k pos prev t` holds when a walk with `k`
sites left at position `pos` over unread previous-trace suffix `prev` can
produce current-trace suffix `t` by the replay-or-execute-or-pend rules. -/
inductive RoundStep (call_results : Nat → Option Nat) :
    Nat → Nat → List Nat → List Nat → Prop
  | finished (pos : Nat) (prev : List Nat) :
      RoundStep call_results 0 pos prev []
  | replay (k pos v : Nat) (rest t : List Nat) :
      RoundStep call_results k (pos + 1) rest t →
      RoundStep call_results (k + 1) pos (v :: rest) (v :: t)
  | execute (k pos v : Nat) (t : List Nat) :
      call_results pos = some v →
      RoundStep call_results k (pos + 1) [] t →
      RoundStep call_results (k + 1) pos [] (v :: t)
  | pending (k pos : Nat) :
      call_results pos = none →
      RoundStep call_results (k + 1) pos [] []

/-- Every round has a run: `run_round_from` realizes the `RoundStep` rules. -/
theorem RoundStep_run (call_results : Nat → Option Nat) :
    ∀ (k pos : Nat) (prev : List Nat),
      RoundStep call_results k pos prev (run_round_from call_results k pos prev) := by
  intro k
  induction k with
  | zero => intro pos prev; exact .finished pos prev
  | succ k ih =>
    intro pos prev
    cases prev with
    | cons v rest =>
      have h : run_round_from call_results (k + 1) pos (v :: rest)
          = v :: run_round_from call_results k (pos + 1) rest := by
        simp [run_round_from]
      rw [h]
      exact .replay k pos v rest _ (ih (pos + 1) rest)
    | nil =>
      cases hr : call_results pos with
      | some v =>
        have h : run_round_from call_results (k + 1) pos []
            = v :: run_round_from call_results k (pos + 1) [] := by
          simp [run_round_from, hr]
        rw [h]
        exact .execute k pos v _ hr (ih (pos + 1) [])
      | none =>
        have h : run_round_from call_results (k + 1) pos [] = [] := by
          simp [run_round_from, hr]
        rw [h]
        exact .pending k pos hr

/-- C2: a round is deterministic — two runs of a round over the same script,
the same previous trace and the same externally supplied call results produce
structurally identical traces. -/
theorem round_trace_deterministic (call_results : Nat → Option Nat)
    (k pos : Nat) (prev t1 t2 : List Nat)
    (h1 : RoundStep call_results k pos prev t1)
    (h2 : RoundStep call_results k pos prev t2) : t1 = t2 := by
  induction h1 generalizing t2 with
  | finished pos prev => cases h2; rfl
  | replay k pos v rest t h ih =>
    cases h2 with
    | replay _ _ _ _ t' h' => rw [ih _ h']
  | execute k pos v t hres h ih =>
    cases h2 with
    | execute _ _ v' t' hres' h' =>
      rw [hres] at hres'
      cases hres'
      rw [ih _ h']
    | pending _ _ hnone => rw [hres] at hnone; cases hnone
  | pending k pos hnone =>
    cases h2 with
    | execute _ _ v' t' hres' h' => rw [hnone] at hres'; cases hres'
    | pending => rfl

/-- Call results answering every request with `3`. -/
def cr_one : Nat → Option Nat := fun _ => some 3

/-- Witness for C2: two explicit runs of the one-call round with `cr_one`
yield the same trace. -/
theorem round_trace_deterministic_witness : ([3] : List Nat) = [3] :=
  round_trace_deterministic cr_one 1 0 [] [3] [3]
    (RoundStep.execute 0 0 3 [] rfl (RoundStep.finished 1 []))
    (RoundStep.execute 0 0 3 [] rfl (RoundStep.finished 1 []))

end AquaVM

namespace AquaVM

/-- The full call-result set recombined from the two rounds' shares: round 1's
answers take effect where present, round 2's elsewhere. -/
def merge_call_results (r1 r2 : Nat → Option Nat) : Nat → Option Nat :=
  fun i =>
    match r1 i with
    | some v => some v
    | none => r2 i

/-- `run_round_from` only reads call results at positions at or beyond its
starting position. -/
theorem run_round_from_congr (r r' : Nat → Option Nat) :
    ∀ (k pos : Nat) (prev : List Nat), (∀ i, pos ≤ i → r i = r' i) →
      run_round_from r k pos prev = run_round_from r' k pos prev := by
  intro k
  induction k with
  | zero => intro pos prev h; rfl
  | succ k ih =>
    intro pos prev h
    have h' : ∀ i, pos + 1 ≤ i → r i = r' i :=
      fun i hi => h i (Nat.le_of_succ_le hi)
    cases prev with
    | cons v rest =>
      simp [run_round_from]
      exact ih (pos + 1) rest h'
    | nil =>
      have hpos : r' pos = r pos := (h pos (Nat.le_refl pos)).symm
      simp only [run_round_from, hpos]
      cases hr : r pos with
      | some v =>
        simp only []
        rw [ih (pos + 1) [] h']
      | none => rfl

/-- The split lemma behind the amended C4: if round 1's share answers a
downward-closed set of request ids (from the current position on), replaying
round 1's trace and continuing with round 2's share reproduces the single
all-answers round. -/
theorem run_round_from_split (r1 r2 : Nat → Option Nat) :
    ∀ (k pos : Nat),
      (∀ i j, pos ≤ j → j ≤ i → (r1 i).isSome → (r1 j).isSome) →
      run_round_from r2 k pos (run_round_from r1 k pos [])
        = run_round_from (merge_call_results r1 r2) k pos [] := by
  intro k
  induction k with
  | zero => intro pos _; rfl
  | succ k ih =>
    intro pos hdc
    cases hr : r1 pos with
    | some v =>
      have hm : merge_call_results r1 r2 pos = some v := by
        simp [merge_call_results, hr]
      have hinner : run_round_from r1 (k + 1) pos []
          = v :: run_round_from r1 k (pos + 1) [] := by
        simp [run_round_from, hr]
      have hL : run_round_from r2 (k + 1) pos
            (v :: run_round_from r1 k (pos + 1) [])
          = v :: run_round_from r2 k (pos + 1) (run_round_from r1 k (pos + 1) []) := by
        simp [run_round_from]
      have hR : run_round_from (merge_call_results r1 r2) (k + 1) pos []
          = v :: run_round_from (merge_call_results r1 r2) k (pos + 1) [] := by
        simp [run_round_from, hm]
      rw [hinner, hL, hR,
        ih (pos + 1) (fun i j hj hij hs => hdc i j (Nat.le_of_succ_le hj) hij hs)]
    | none =>
      have hnone : ∀ i, pos ≤ i → r1 i = none := by
        intro i hi
        cases hri : r1 i with
        | none => rfl
        | some w =>
          have hs : (r1 pos).isSome := hdc i pos (Nat.le_refl pos) hi (by simp [hri])
          rw [hr] at hs
          cases hs
      have hmerge : ∀ i, pos ≤ i → merge_call_results r1 r2 i = r2 i := by
        intro i hi
        simp [merge_call_results, hnone i hi]
      have hinner : run_round_from r1 (k + 1) pos [] = [] := by
        simp [run_round_from, hr]
      rw [hinner]
      exact (run_round_from_congr (merge_call_results r1 r2) r2 (k + 1) pos [] hmerge).symm

/-- Round 1 answers request id 1 only; its answer is never consumed because
the round pends at id 0. -/
def r1c : Nat → Option Nat := fun i => if i = 1 then some 7 else none

/-- Round 2 supplies the rest: the answer for request id 0. -/
def r2c : Nat → Option Nat := fun i => if i = 0 then some 5 else none

/-- C4 counterexample: splitting the call results `{0 ↦ 5, 1 ↦ 7}` of a
two-call script as round 1 = `{1 ↦ 7}`, round 2 = the rest `{0 ↦ 5}` loses
the answer `7`: the single round yields `[5, 7]` but the two-round run yields
`[5]`, so an *arbitrary* split does not preserve the final trace (the two
shares are disjoint: round 1 has nothing at id 0, round 2 nothing at id 1). -/
theorem split_rounds_counterexample :
    run_round (merge_call_results r1c r2c) 2 [] = [5, 7]
    ∧ run_round r2c 2 (run_round r1c 2 []) = [5]
    ∧ r1c 0 = none ∧ r2c 1 = none := by
  refine ⟨rfl, rfl, rfl, rfl⟩

/-- C4 (amended): for all scripts and call-result sets, a split across two
rounds yields the same final trace as the single all-answers round *provided
round 1's share answers a downward-closed set of request ids* (an initial
segment of the walk order — exactly the shares a host can realize, since a
round pends at its first unanswered call). -/
theorem split_rounds_replay_equiv (r1 r2 : Nat → Option Nat) (script_len : Nat)
    (hdc : ∀ i j, j ≤ i → (r1 i).isSome → (r1 j).isSome) :
    run_round r2 script_len (run_round r1 script_len [])
      = run_round (merge_call_results r1 r2) script_len [] :=
  run_round_from_split r1 r2 script_len 0 (fun i j _ hij hs => hdc i j hij hs)

/-- Round 1 share answering exactly request id 0. -/
def r1w : Nat → Option Nat := fun i => if i = 0 then some 4 else none

/-- Round 2 share answering exactly request id 1. -/
def r2w : Nat → Option Nat := fun i => if i = 1 then some 6 else none

/-- Witness for the amended C4 on a two-call script split `{0 ↦ 4}` then
`{1 ↦ 6}`. -/
theorem split_rounds_replay_equiv_witness :
    run_round r2w 2 (run_round r1w 2 [])
      = run_round (merge_call_results r1w r2w) 2 [] :=
  split_rounds_replay_equiv r1w r2w 2 (by
    intro i j hji hi
    have hi0 : i = 0 := by
      by_contra hne
      simp [r1w, hne] at hi
    subst hi0
    have hj0 : j = 0 := Nat.le_zero.mp hji
    subst hj0
    simp [r1w])

end AquaVM
